import Mathlib

/-!
Shallow embedding of the imbrut credential-probing core (src/lib.rs): the
HTTP outcome classification, the credential enumeration (file-backed,
generator-backed, cartesian pairing), the credential type erasure, and the
pacing state machine, together with theorems settling the specification's
claims about them.
-/

/-- Mirrors the response-classification tail of HTTPProto::check
(src/lib.rs 176-189): the status must be one of success_codes, then the
fail_if_contains loop runs first (any hit returns Err), then the
success_if_contains loop (any hit returns Ok), and every fall-through ends
at the final Err. Statuses are Nats, bodies and patterns are char lists,
and Rust str::contains is the sublist (infix) test; true models Ok(())
(Accepted), false models Err(()) (Rejected). -/
def HTTPProto.classify (success_codes : List Nat)
    (fail_if_contains success_if_contains : List (List Char))
    (status : Nat) (body : List Char) : Bool :=
  if status ∈ success_codes then
    if fail_if_contains.any fun x => decide (x <:+: body) then false
    else if success_if_contains.any fun x => decide (x <:+: body) then true
    else false
  else false

/-- Authentication modes actually supported by HTTPProto::check. -/
inductive AuthMode
  | form
  | basic
deriving DecidableEq

/-- Mirrors the auth_type match in HTTPProto::check (src/lib.rs 158-169):
"form" and "basic" attach credentials to the cloned request template, any
other value panics ("Unsupported authentication type"), modelled none. -/
def attachAuth (auth_type : String) : Option AuthMode :=
  if auth_type = "form" then some AuthMode.form
  else if auth_type = "basic" then some AuthMode.basic
  else none

/-- Mirrors HTTPProto::check (src/lib.rs 152-190). The respond oracle
stands for the one blocking HTTP round trip: it receives the request with
the chosen auth mode attached and returns (status, body). The second
component of the result counts how many requests were sent. An unsupported
auth_type panics before the send, modelled Except.error () with zero
requests sent. -/
def HTTPProto.check (auth_type : String) (success_codes : List Nat)
    (fail_if_contains success_if_contains : List (List Char))
    (respond : AuthMode → Nat × List Char) : Except Unit Bool × Nat :=
  match attachAuth auth_type with
  | none => (Except.error (), 0)
  | some m =>
    let resp := respond m
    (Except.ok (HTTPProto.classify success_codes fail_if_contains
        success_if_contains resp.1 resp.2), 1)

/-- Mirrors DynProto::check (src/lib.rs 43-49). A Box<dyn Any> credential
is modelled as a sum: Sum.inl holds a value of the wrapped concrete
credential type C, Sum.inr a value of any other type O. A successful
downcast delegates to the wrapped checker chk; the failed downcast panics
("Credentials are not valid"), modelled Except.error (). -/
def DynProto.check (C O R : Type) (chk : C → R) : C ⊕ O → Except Unit R
  | Sum.inl c => Except.ok (chk c)
  | Sum.inr _ => Except.error ()

/-- Mirrors DynProto::get_credentials (src/lib.rs 51-54): the wrapped
checker's credential sequence, each element boxed (erased) unchanged. -/
def DynProto.get_credentials (C O : Type) (creds : List C) : List (C ⊕ O) :=
  creds.map Sum.inl

/-- Mirrors FileWithStrings::new (src/lib.rs 227-233). The outcome of
File::open is passed in: an open failure is unwrapped into a panic, so it
is fatal at construction time, before any line is read. A successfully
opened file is the list of line-read results the BufReader will deliver:
Except.ok is a decoded line (BufRead::lines has already stripped its
trailing newline), Except.error a malformed/undecodable line. -/
def FileWithStrings.new
    (openResult : Except Unit (List (Except Unit String))) :
    Except Unit (List (Except Unit String)) :=
  match openResult with
  | Except.error e => Except.error e
  | Except.ok lines => Except.ok lines

/-- Mirrors FileWithStrings::next (src/lib.rs 235-241), which is
iter.next().and_then(result.ok): the next line-read result is consumed in
either case; an Ok line is yielded, a read error makes next return None. -/
def FileWithStrings.next :
    List (Except Unit String) → Option (String × List (Except Unit String))
  | [] => none
  | Except.ok s :: rest => some (s, rest)
  | Except.error _ :: _ => none

/-- Standard Rust iterator consumption of FileWithStrings: for loops,
collect, count and enumerate all call next() until the first None and then
stop, so they see the yielded strings up to the first read error. -/
def FileWithStrings.collect : List (Except Unit String) → List String
  | [] => []
  | Except.ok s :: rest => s :: FileWithStrings.collect rest
  | Except.error _ :: _ => []

/-- One expansion step of combinations-with-replacement over a pool
suffix: the combinations beginning with the head element (head prepended
to every combination of the remaining budget over the same suffix),
followed by the combinations avoiding the head. -/
def cwrStep {A : Type} (prev : List A → List (List A)) :
    List A → List (List A)
  | [] => []
  | a :: as => ((prev (a :: as)).map fun c => a :: c) ++ cwrStep prev as

/-- Models itertools::combinations_with_replacement over a pool: every
non-decreasing index sequence of the given length, in lexicographic order
of index sequences — the iterator wrapped by StringsGenerator
(src/lib.rs 244-265). -/
def cwr {A : Type} (size : Nat) (pool : List A) : List (List A) :=
  match size with
  | 0 => [[]]
  | n + 1 => cwrStep (cwr n) pool

/-- Mirrors StringsGenerator::new plus its Iterator impl (src/lib.rs
244-265): concatenate the allowed_chars strings, take the chars, run
combinations_with_replacement of the requested size; each yielded item is
the collected char sequence. -/
def StringsGenerator (allowed_chars : List String) (size : Nat) :
    List (List Char) :=
  cwr size (String.toList (String.join allowed_chars))

/-- Mirrors the credential pairing in HTTPProto::get_credentials
(src/lib.rs 199-203): itertools cartesian_product with usernames as the
outer loop and passwords as the inner loop, both in source order. -/
def HTTPProto.get_credentials (usernames passwords : List String) :
    List (String × String) :=
  usernames.flatMap fun u => passwords.map fun p => (u, p)

/-- Mirrors Application::get_usernames (src/lib.rs 640-642): the body is
todo!(), which panics unconditionally. -/
def Application.get_usernames : Except Unit (List String) :=
  Except.error ()

/-- Mirrors the composition in HTTPProto::get_credentials (src/lib.rs
192-207): app.get_usernames() is evaluated first, then app.get_passwords()
(whose result is passed in here as an already-built stream outcome), then
the cartesian pairing of the two streams. -/
def HTTPProto.get_credentials_of_app
    (passwords : Except Unit (List String)) :
    Except Unit (List (String × String)) := do
  let us ← Application.get_usernames
  let ps ← passwords
  pure (HTTPProto.get_credentials us ps)

/-- Mirrors Proto::get_workload (src/lib.rs 23-25): a fresh enumeration is
fully consumed and counted. -/
def Proto.get_workload (passwords : Except Unit (List String)) :
    Except Unit Nat :=
  (HTTPProto.get_credentials_of_app passwords).map List.length

/-- Observable actions of one pacing-state visit: one credential check at
a stream index, or one thread::sleep of some milliseconds. -/
inductive Event
  | checked (i : Nat)
  | slept (ms : Nat)
deriving DecidableEq

/-- The three State implementations of the pacing machine (src/lib.rs
486-536) as pure tags interpreted by the driver. -/
inductive StateTag
  | default
  | sleepS (ms : Nat)
  | requests (n : Nat)
deriving DecidableEq

/-- Mirrors SleepState::run (src/lib.rs 493-498): thread::sleep(value),
no access to the stream, then None (never terminal by itself). -/
def SleepState.run {A : Type} (ms : Nat) (stream : List (Nat × A)) :
    List (Nat × A) × Option Unit × List Event :=
  (stream, none, [Event.slept ms])

/-- Mirrors RequestsState::run (src/lib.rs 500-519) on the shared
enumerated stream: the result is the remaining stream, Some () when the
visit is terminal (a check succeeded, or the stream ran out inside the
loop), None at a batch boundary (a consumed global index i with
i % value = value - 1), together with the checks performed. Rust u64
arithmetic panics on value = 0; Nat % totalises that case, which no claim
exercises. -/
def RequestsState.run {A : Type} (check : A → Bool) (value : Nat) :
    List (Nat × A) → List (Nat × A) × Option Unit × List Event
  | [] => ([], some (), [])
  | (i, c) :: rest =>
    if check c then (rest, some (), [Event.checked i])
    else if i % value = value - 1 then (rest, none, [Event.checked i])
    else
      let r := RequestsState.run check value rest
      (r.1, r.2.1, Event.checked i :: r.2.2)

/-- Mirrors DefaultState::run (src/lib.rs 521-536): drain the whole
stream, returning Some () as soon as a check succeeds, and Some () again
when the stream is exhausted — the same terminal value on both paths, with
no credential attached. -/
def DefaultState.run {A : Type} (check : A → Bool) :
    List (Nat × A) → List (Nat × A) × Option Unit × List Event
  | [] => ([], some (), [])
  | (i, c) :: rest =>
    if check c then (rest, some (), [Event.checked i])
    else
      let r := DefaultState.run check rest
      (r.1, r.2.1, Event.checked i :: r.2.2)

/-- Dynamic dispatch of State::run over the three state tags. -/
def runState {A : Type} (check : A → Bool) (st : StateTag)
    (stream : List (Nat × A)) :
    List (Nat × A) × Option Unit × List Event :=
  match st with
  | StateTag.default => DefaultState.run check stream
  | StateTag.sleepS ms => SleepState.run ms stream
  | StateTag.requests v => RequestsState.run check v stream

/-- Mirrors one entry of the state list built inside Strategy::set_strategy
(src/lib.rs 555-569): "requests" and "sleep" build states, any other key
panics ("Unsupported strategy key"), modelled none. -/
def mkState (kv : String × Nat) : Option StateTag :=
  if kv.1 = "requests" then some (StateTag.requests kv.2)
  else if kv.1 = "sleep" then some (StateTag.sleepS kv.2)
  else none

/-- Mirrors Strategy::set_strategy (src/lib.rs 552-573). The method first
binds states to the [DefaultState] vector; inside the non-empty branch a
second let of the same name SHADOWS the first and is dropped when the
block ends, so the final assignment self.states = Some(states) always
stores the outer [DefaultState] vector, whatever plan was configured. The
shadowed value is kept here as a dead binding to mirror that structure. -/
def Strategy.set_strategy (raw_strategy : List (String × Nat)) :
    List StateTag :=
  let states := [StateTag.default]
  let _shadowed :=
    if raw_strategy.isEmpty then none else some (raw_strategy.map mkState)
  states

/-- Mirrors Strategy::run (src/lib.rs 538-545): visit the states
cyclically (k is the position in the cycle) until some visit returns a
terminal Some, collecting every visit's events. The cycle can genuinely
run forever (for example a plan consisting only of sleeps), so the model
takes fuel: none means the fuel ran out before a terminal visit. An empty
state vector makes iter().cycle() yield nothing, so the loop body never
runs and the driver returns at once with no events. -/
def Strategy.runAux {A : Type} (check : A → Bool) (states : List StateTag) :
    Nat → Nat → List (Nat × A) → Option (List Event)
  | 0, _, _ => none
  | fuel + 1, k, stream =>
    match states.get? (k % states.length) with
    | none => some []
    | some st =>
      let r := runState check st stream
      match r.2.1 with
      | some _ => some r.2.2
      | none =>
        match Strategy.runAux check states fuel (k + 1) r.1 with
        | none => none
        | some t2 => some (r.2.2 ++ t2)

/-- Strategy::run started at the first state of the cycle, over the
enumerated credential stream built in Strategy::new (src/lib.rs 479). -/
def Strategy.run {A : Type} (check : A → Bool) (states : List StateTag)
    (fuel : Nat) (stream : List (Nat × A)) : Option (List Event) :=
  Strategy.runAux check states fuel 0 stream

/-- C1: for every HTTP response, the per-credential outcome is Accepted
exactly when the status is in the accepted-status set, no fail_if_contains
substring occurs in the body, and some success_if_contains substring does;
in every other case (status gate failing, a fail substring hitting first
even when a success substring is also present, or no content rule
matching) the outcome is Rejected. -/
theorem C1_classification (success_codes : List Nat)
    (fail_if_contains success_if_contains : List (List Char))
    (status : Nat) (body : List Char) :
    HTTPProto.classify success_codes fail_if_contains success_if_contains
        status body = true ↔
      status ∈ success_codes ∧
        (∀ x ∈ fail_if_contains, ¬ x <:+: body) ∧
        (∃ x ∈ success_if_contains, x <:+: body) := by
  unfold HTTPProto.classify
  split_ifs with h1 h2 h3 <;> simp_all [List.any_eq_true]

/-- C7: Application::get_usernames is todo!() and panics unconditionally,
so building the credential enumeration and computing the workload both
fail fatally, whatever the password stream would have produced, before any
credential can be checked. -/
theorem C7_usernames_unimplemented
    (passwords : Except Unit (List String)) :
    Application.get_usernames = Except.error () ∧
    HTTPProto.get_credentials_of_app passwords = Except.error () ∧
    Proto.get_workload passwords = Except.error () :=
  ⟨rfl, rfl, rfl⟩

/-- C8: with an auth_type that is neither "form" nor "basic",
HTTPProto::check panics at check time with the unsupported-auth-type
configuration error and sends no HTTP request at all. -/
theorem C8_unsupported_auth (auth_type : String) (success_codes : List Nat)
    (fail_if_contains success_if_contains : List (List Char))
    (respond : AuthMode → Nat × List Char)
    (h1 : auth_type ≠ "form") (h2 : auth_type ≠ "basic") :
    HTTPProto.check auth_type success_codes fail_if_contains
        success_if_contains respond = (Except.error (), 0) := by
  unfold HTTPProto.check attachAuth
  simp [h1, h2]

/-- Witness for C8 at the concrete unsupported auth_type "digest". -/
theorem C8_witness :
    HTTPProto.check "digest" [200] [] [] (fun _ => (200, [])) =
      (Except.error (), 0) :=
  C8_unsupported_auth "digest" [200] [] [] (fun _ => (200, []))
    (by decide) (by decide)

/-- C9: the erased checker applied to a correctly-typed erased credential
returns exactly the wrapped checker's result; the erased enumeration is
the wrapped enumeration element for element, so checking along it equals
checking directly; and a wrongly-typed erased credential makes check panic
(a fatal logic fault), not return an outcome. -/
theorem C9_type_erasure (C O R : Type) (chk : C → R) (creds : List C) :
    (∀ c : C, DynProto.check C O R chk (Sum.inl c) = Except.ok (chk c)) ∧
    (DynProto.get_credentials C O creds).map (DynProto.check C O R chk) =
      creds.map (fun c => Except.ok (chk c)) ∧
    (∀ o : O, DynProto.check C O R chk (Sum.inr o) = Except.error ()) := by
  refine ⟨fun c => rfl, ?_, fun o => rfl⟩
  simp [DynProto.get_credentials, DynProto.check, List.map_map,
    Function.comp]

/-- C3: evaluated at the repository's own unit-test input (alphabet "123",
length 3), the generator yields 10 candidate strings, not the 3 ^ 3 = 27
of the full Cartesian power, and omits ordered candidates such as "211"
that the unit test expects — combinations-with-replacement under-covers
the space. -/
theorem C3_generator_undercovers :
    (StringsGenerator ["123"] 3).length = 10 ∧
    ¬ (StringsGenerator ["123"] 3).length = 3 ^ 3 ∧
    ¬ String.toList "211" ∈ StringsGenerator ["123"] 3 := by
  decide

/-- C4: the configured pacing plan is discarded by the shadowed rebinding
inside Strategy::set_strategy, so with plan [("requests", 3),
("sleep", 100)] and 10 non-matching credentials the machine holds only the
DefaultState, drains all 10 checks in a single visit, and never sleeps —
instead of sleeping 100ms after every 3 checks. -/
theorem C4_plan_discarded :
    Strategy.set_strategy [("requests", 3), ("sleep", 100)] =
      [StateTag.default] ∧
    Strategy.run (fun _ : Nat => false)
        (Strategy.set_strategy [("requests", 3), ("sleep", 100)]) 1
        (List.enum (List.range 10)) =
      some ((List.range 10).map Event.checked) ∧
    ((List.range 10).map Event.checked).countP
        (fun e => match e with
          | Event.slept _ => true
          | Event.checked _ => false) = 0 := by
  refine ⟨rfl, by decide, by decide⟩

/-- Helper for C6: on a run of well-formed line results the iterator
yields every line, and a malformed line appended after such a run cuts the
stream there, whatever follows it. -/
theorem FileWithStrings.collect_spec (pre : List (Except Unit String))
    (h : pre.all (fun r => r.toOption.isSome) = true) :
    (∀ post, FileWithStrings.collect (pre ++ Except.error () :: post) =
        pre.filterMap Except.toOption) ∧
    FileWithStrings.collect pre = pre.filterMap Except.toOption := by
  revert h
  induction pre with
  | nil => exact fun _ => ⟨fun post => rfl, rfl⟩
  | cons r rest ih =>
    intro h
    rw [List.all_cons, Bool.and_eq_true] at h
    obtain ⟨hr, hrest⟩ := h
    obtain ⟨ih1, ih2⟩ := ih hrest
    cases r with
    | error e => simp [Except.toOption] at hr
    | ok s =>
      constructor
      · intro post
        simp [FileWithStrings.collect, Except.toOption, ih1 post]
      · simp [FileWithStrings.collect, Except.toOption, ih2]

/-- C6 counterexample: with read results line "a", then a malformed line,
then line "b", the iterator yields only ["a"] — the well-formed line
occurring after the malformed one is NOT yielded, refuting the claimed
skip-and-continue behavior. -/
theorem C6_counterexample :
    FileWithStrings.collect
        [Except.ok "a", Except.error (), Except.ok "b"] = ["a"] ∧
    ¬ "b" ∈ FileWithStrings.collect
        [Except.ok "a", Except.error (), Except.ok "b"] := by
  decide

/-- C6 amended: the file-backed source yields one candidate string per
line (trailing newline already stripped by the line reader), but a
malformed/undecodable line TERMINATES the stream rather than being
skipped: consumers see exactly the well-formed lines before the first
malformed one and nothing after it; a file that cannot be opened is a
fatal error at construction time. -/
theorem C6_line_stream (pre post : List (Except Unit String))
    (h : pre.all (fun r => r.toOption.isSome) = true) :
    FileWithStrings.new (Except.error ()) = Except.error () ∧
    FileWithStrings.collect (pre ++ Except.error () :: post) =
      pre.filterMap Except.toOption ∧
    FileWithStrings.collect pre = pre.filterMap Except.toOption :=
  ⟨rfl, (FileWithStrings.collect_spec pre h).1 post,
    (FileWithStrings.collect_spec pre h).2⟩

/-- Witness for C6 amended at a concrete file whose second line is
malformed. -/
theorem C6_witness :
    (([Except.ok "a"] : List (Except Unit String)).all
        (fun r => r.toOption.isSome) = true) ∧
    FileWithStrings.collect
        ([Except.ok "a"] ++ Except.error () :: [Except.ok "b"]) =
      ([Except.ok "a"] : List (Except Unit String)).filterMap
        Except.toOption :=
  ⟨by decide, (C6_line_stream [Except.ok "a"] [Except.ok "b"]
    (by decide)).2.1⟩

/-- C10: a Sleep(duration) visit records exactly the one sleep of that
duration, leaves the shared stream cursor untouched, and is never
terminal by itself: a driver cycle step through a sleep state equals the
rest of the run from the next cycle position on the SAME stream, prefixed
by the sleep event. -/
theorem C10_sleep_frame {A : Type} (check : A → Bool)
    (states : List StateTag) (fuel k ms : Nat) (stream : List (Nat × A))
    (h : states.get? (k % states.length) = some (StateTag.sleepS ms)) :
    runState check (StateTag.sleepS ms) stream =
      (stream, none, [Event.slept ms]) ∧
    Strategy.runAux check states (fuel + 1) k stream =
      (Strategy.runAux check states fuel (k + 1) stream).map
        (fun t => Event.slept ms :: t) := by
  refine ⟨rfl, ?_⟩
  rw [Strategy.runAux, h]
  simp only [runState, SleepState.run]
  cases hr : Strategy.runAux check states fuel (k + 1) stream <;>
    simp [hr]

/-- Witness for C10: a single 100ms sleep state visited at cycle position
0 over a one-credential stream. -/
theorem C10_witness :
    ([StateTag.sleepS 100].get? (0 % [StateTag.sleepS 100].length) =
        some (StateTag.sleepS 100)) ∧
    runState (fun x => x == 1) (StateTag.sleepS 100) [(0, (5 : Nat))] =
      ([(0, 5)], none, [Event.slept 100]) ∧
    Strategy.runAux (fun x => x == 1) [StateTag.sleepS 100] 1 0
        [(0, (5 : Nat))] =
      (Strategy.runAux (fun x => x == 1) [StateTag.sleepS 100] 0 1
          [(0, 5)]).map (fun t => Event.slept 100 :: t) :=
  ⟨rfl,
    (C10_sleep_frame (fun x => x == 1) [StateTag.sleepS 100] 0 0 100
      [(0, 5)] rfl).1,
    (C10_sleep_frame (fun x => x == 1) [StateTag.sleepS 100] 0 0 100
      [(0, 5)] rfl).2⟩

/-- Helper for C5: the pair at flat position i * |P| + j of the cartesian
pairing is the i-th username with the j-th password. -/
theorem HTTPProto.get_credentials_get? (P : List String) :
    ∀ (U : List String) (i j : Nat) (u p : String),
      U.get? i = some u → P.get? j = some p →
      (HTTPProto.get_credentials U P).get? (i * P.length + j) =
        some (u, p) := by
  intro U
  induction U with
  | nil => intro i j u p hu hp; simp at hu
  | cons u0 U ih =>
    intro i j u p hu hp
    cases i with
    | zero =>
      have hu0 : u0 = u := by simpa using hu
      obtain ⟨hj, -⟩ := List.get?_eq_some.mp hp
      subst hu0
      simp only [HTTPProto.get_credentials, List.flatMap_cons,
        Nat.zero_mul, Nat.zero_add]
      rw [List.get?_append (by simpa using hj), List.get?_map, hp]
      rfl
    | succ i =>
      rw [List.get?_cons_succ] at hu
      have hle : P.length ≤ (i + 1) * P.length + j := by
        rw [Nat.succ_mul]
        generalize i * P.length = m
        omega
      have hidx : (i + 1) * P.length + j - P.length =
          i * P.length + j := by
        rw [Nat.succ_mul]
        generalize i * P.length = m
        omega
      have hrec := ih i j u p hu hp
      simp only [HTTPProto.get_credentials] at hrec ⊢
      rw [List.flatMap_cons, List.get?_append_right (by simpa using hle)]
      simpa [List.length_map, hidx] using hrec

/-- C5: the credential enumerator is the full cartesian product of the
username source (outer loop) and the password source (inner loop): it has
exactly m * k pairs; the pair at flat position i * k + j is the i-th
username with the j-th password, so the password source is exhausted for
each fixed username before the next username, in source order of both
inputs; and when both sources are duplicate-free every pair occurs exactly
once. -/
theorem C5_cartesian_enumeration (U P : List String) :
    (HTTPProto.get_credentials U P).length = U.length * P.length ∧
    (∀ i j u p, U.get? i = some u → P.get? j = some p →
      (HTTPProto.get_credentials U P).get? (i * P.length + j) =
        some (u, p)) ∧
    (U.Nodup → P.Nodup → (HTTPProto.get_credentials U P).Nodup) := by
  have hprod : HTTPProto.get_credentials U P = U ×ˢ P := rfl
  refine ⟨?_, fun i j u p hu hp =>
    HTTPProto.get_credentials_get? P U i j u p hu hp, fun hU hP => ?_⟩
  · rw [hprod, List.length_product]
  · rw [hprod]; exact hU.product hP

/-- Witness for C5 on concrete two-by-two sources. -/
theorem C5_witness :
    (HTTPProto.get_credentials ["a", "b"] ["x", "y"]).length = 2 * 2 ∧
    (HTTPProto.get_credentials ["a", "b"] ["x", "y"]).get? (1 * 2 + 0) =
      some ("b", "x") ∧
    (HTTPProto.get_credentials ["a", "b"] ["x", "y"]).Nodup :=
  ⟨(C5_cartesian_enumeration ["a", "b"] ["x", "y"]).1,
    (C5_cartesian_enumeration ["a", "b"] ["x", "y"]).2.1 1 0 "b" "x"
      rfl rfl,
    (C5_cartesian_enumeration ["a", "b"] ["x", "y"]).2.2 (by decide)
      (by decide)⟩

/-- Helper for C2: DefaultState::run on an all-rejected enumerated stream
checks every credential in order, exhausts the stream, and ends with the
terminal Some (). -/
theorem DefaultState.run_exhausted {A : Type} (check : A → Bool) :
    ∀ (l : List A) (k : Nat), (∀ x ∈ l, check x = false) →
      DefaultState.run check (List.enumFrom k l) =
        ([], some (), (List.range' k l.length).map Event.checked) := by
  intro l
  induction l with
  | nil => intro k h; rfl
  | cons a as ih =>
    intro k h
    have ha : check a = false := h a (List.mem_cons_self a as)
    have has := ih (k + 1) fun x hx => h x (List.mem_cons_of_mem a hx)
    simp [List.enumFrom_cons, DefaultState.run, ha, has, List.range'_succ]

/-- Helper for C2: DefaultState::run stops at the first accepted
credential, checking exactly the stream prefix up to and including it,
leaving the rest of the stream unconsumed, and ends with the terminal
Some (). -/
theorem DefaultState.run_match {A : Type} (check : A → Bool) (c : A)
    (hc : check c = true) :
    ∀ (l1 l2 : List A) (k : Nat), (∀ x ∈ l1, check x = false) →
      DefaultState.run check (List.enumFrom k (l1 ++ c :: l2)) =
        (List.enumFrom (k + l1.length + 1) l2, some (),
          (List.range' k (l1.length + 1)).map Event.checked) := by
  intro l1
  induction l1 with
  | nil =>
    intro l2 k h
    simp [List.enumFrom_cons, DefaultState.run, hc, List.range'_succ]
  | cons a as ih =>
    intro l2 k h
    have ha : check a = false := h a (List.mem_cons_self a as)
    have has := ih l2 (k + 1) fun x hx => h x (List.mem_cons_of_mem a hx)
    simp [List.cons_append, List.enumFrom_cons, DefaultState.run, ha,
      has, List.range'_succ, Nat.add_assoc, Nat.add_comm,
      Nat.add_left_comm]

/-- C2 amended: over any finite enumerated stream, the drain-all run is
terminal in a single state visit and the outer driver breaks on it at
once, whatever fuel remains: when some credential is accepted it checks,
in enumeration order, exactly the credentials up to and including the
first accepted one; when none is accepted it checks every credential.
Both endings report the SAME terminal value (the code returns Some(()) on
both paths, carrying no credential), so Match and Exhausted are not
distinguished in the reported outcome. -/
theorem C2_first_match_or_exhaustion {A : Type} (check : A → Bool)
    (l : List A) (fuel : Nat) :
    ((∀ x ∈ l, check x = false) →
      Strategy.run check [StateTag.default] (fuel + 1) l.enum =
        some ((List.range l.length).map Event.checked)) ∧
    (∀ l1 c l2, l = l1 ++ c :: l2 → (∀ x ∈ l1, check x = false) →
      check c = true →
      Strategy.run check [StateTag.default] (fuel + 1) l.enum =
        some ((List.range (l1.length + 1)).map Event.checked)) := by
  constructor
  · intro h
    have hd := DefaultState.run_exhausted check l 0 h
    simp [Strategy.run, Strategy.runAux, runState, List.enum_eq_enumFrom,
      hd, List.range_eq_range']
  · intro l1 c l2 hl h hc
    subst hl
    have hd := DefaultState.run_match check c hc l1 l2 0 h
    simp [Strategy.run, Strategy.runAux, runState, List.enum_eq_enumFrom,
      hd, List.range_eq_range']

/-- C2 counterexample: the code reports Match and Exhausted as the SAME
outcome value. A two-credential stream whose second credential is
accepted (2 checks, early stop) and a five-credential all-rejected stream
(5 checks, exhaustion) both end in the very same terminal Some () with no
credential attached, so the two terminal outcomes are not reported as
distinct. -/
theorem C2_counterexample :
    DefaultState.run (fun x => x == 2) (List.enum [1, 2]) =
      (([] : List (Nat × Nat)), some (),
        [Event.checked 0, Event.checked 1]) ∧
    DefaultState.run (fun _ => false) (List.enum [1, 2, 3, 4, 5]) =
      (([] : List (Nat × Nat)), some (),
        [Event.checked 0, Event.checked 1, Event.checked 2,
          Event.checked 3, Event.checked 4]) ∧
    (DefaultState.run (fun x => x == 2) (List.enum [1, 2])).2.1 =
      (DefaultState.run (fun _ => false)
        (List.enum [1, 2, 3, 4, 5])).2.1 := by
  decide

/-- Witness for C2 amended: the spec's two end-to-end scenarios — a
stream whose second credential is accepted (exactly 2 checks) and an
all-rejected stream of length 5 (exactly 5 checks). -/
theorem C2_witness :
    Strategy.run (fun x => x == 7) [StateTag.default] 1
        (List.enum [5, 7]) =
      some ((List.range (List.length [5] + 1)).map Event.checked) ∧
    Strategy.run (fun _ : Nat => false) [StateTag.default] 1
        (List.enum [1, 2, 3, 4, 5]) =
      some ((List.range (List.length [1, 2, 3, 4, 5])).map
        Event.checked) :=
  ⟨(C2_first_match_or_exhaustion (fun x => x == 7) [5, 7] 0).2 [5] 7 []
      rfl (by decide) (by decide),
    (C2_first_match_or_exhaustion (fun _ : Nat => false)
      [1, 2, 3, 4, 5] 0).1 (by decide)⟩
